import Mathlib

/-!
Verification development for the transport-backend dispatch system.

The definitions below are shallow embeddings of the Python source:
  * pricing engine             — backend/api/services.py (pricing_for_trip)
  * trip validation            — backend/api/serializers.py (TripSerializer.validate)
  * assignment state machine   — backend/api/views.py (assign_driver / unassign_driver)
                                 and backend/api/serializers.py (TripSerializer.update)
  * bulk invoicing             — backend/api/views.py (TripViewSet.bulk_invoice)
  * Avinor best-candidate pick — backend/api/views.py (AirEtaAvinor.get, score)
  * flight-number matcher      — backend/api/integrations/fr24.py

Times of day are modelled as minutes since midnight (Nat); dates as integer
day codes; model instances referenced by foreign keys as their integer ids.
Python `datetime.time` objects compare lexicographically, which agrees with
the minute encoding.  In Python 3 a `time` object is always truthy, so the
`if not start or not end` guard in the source fires exactly when a bound is
`None`; absent values are therefore modelled with `Option`.
-/

/-! ## Pricing engine (backend/api/services.py) -/

/-- A `PricePlan` row (backend/api/models.py).  `night_start` / `night_end`
are nullable time fields; all money fields are Django `IntegerField`s. -/
structure PricePlan where
  base_price : Int
  base_pax_included : Int
  extra_pax_price : Int
  night_start : Option Nat
  night_end : Option Nat
  night_surcharge : Int
  holiday_surcharge : Int
  stop1_surcharge : Int
  stop2_surcharge : Int
  active : Bool
deriving DecidableEq, Repr

/-- The hard-coded local defaults at the top of `pricing_for_trip`:
base 900, 7 pax included, everything else 0 / absent. -/
def defaultPlan : PricePlan :=
  { base_price := 900
    base_pax_included := 7
    extra_pax_price := 0
    night_start := none
    night_end := none
    night_surcharge := 0
    holiday_surcharge := 0
    stop1_surcharge := 0
    stop2_surcharge := 0
    active := true }

/-- The database state `pricing_for_trip` reads: the `Holiday` table (as the
list of its dates) and, per customer id, the price plan of the first
`CustomerPricePlan` link (the FK is non-nullable, so a link always carries a
plan). -/
structure PricingDB where
  holidays : List Int
  planLink : Nat → Option PricePlan

/-- The `data` dict handed to `pricing_for_trip` (validated serializer data).
`date` and `start_time` are required model fields; `pax`, the customer and
the stop slots are optional.  `stop1_name`/`stop2_name` are the write-only
"pending name" markers. -/
structure TripData where
  customer : Option Nat
  pax : Option Int
  start_time : Nat
  date : Int
  stop1_location : Option Nat
  stop2_location : Option Nat
  stop1_name : Option String
  stop2_name : Option String
deriving DecidableEq, Repr

/-- `in_night_window` from services.py: `None` bounds never match; a
non-wrapping window (`start <= end`) is inclusive on both ends; a wrapping
window matches `t >= start or t <= end`. -/
def in_night_window (t : Nat) (s e : Option Nat) : Bool :=
  match s, e with
  | none, _ => false
  | _, none => false
  | some s, some e =>
      if s ≤ e then decide (s ≤ t) && decide (t ≤ e)
      else decide (t ≥ s) || decide (t ≤ e)

/-- `int(data.get("pax") or 1)`: a missing pax and a pax of `0` (both falsy
in Python) default to 1. -/
def effectivePax (p : Option Int) : Int :=
  match p with
  | none => 1
  | some v => if v = 0 then 1 else v

/-- Truthiness of an optional string field (`data.get("stop1_name")`):
present and non-empty. -/
def strTruthy (o : Option String) : Bool :=
  match o with
  | some s => !(s == "")
  | none => false

/-- `data.get("stop1_location") is not None or data.get("stop1_name")`. -/
def stop1Present (d : TripData) : Bool :=
  d.stop1_location.isSome || strTruthy d.stop1_name

/-- `data.get("stop2_location") is not None or data.get("stop2_name")`. -/
def stop2Present (d : TripData) : Bool :=
  d.stop2_location.isSome || strTruthy d.stop2_name

/-- The stop counter accumulated in `pricing_for_trip`. -/
def stopsCount (d : TripData) : Nat :=
  (if stop1Present d then 1 else 0) + (if stop2Present d then 1 else 0)

/-- Plan resolution inside `pricing_for_trip`: the local defaults are
overwritten field-by-field exactly when a customer is given, a
`CustomerPricePlan` link exists, and the linked plan is active. -/
def resolved_plan (db : PricingDB) (customer : Option Nat) : PricePlan :=
  match customer with
  | none => defaultPlan
  | some c =>
      match db.planLink c with
      | some pp => if pp.active then pp else defaultPlan
      | none => defaultPlan

/-- `pricing_for_trip` from backend/api/services.py. -/
def pricing_for_trip (db : PricingDB) (data : TripData) : Int :=
  let pp := resolved_plan db data.customer
  let pax := effectivePax data.pax
  let p1 :=
    if pax > pp.base_pax_included then
      pp.base_price + (pax - pp.base_pax_included) * pp.extra_pax_price
    else pp.base_price
  let p2 :=
    if in_night_window data.start_time pp.night_start pp.night_end then
      p1 + pp.night_surcharge
    else p1
  let p3 :=
    if db.holidays.contains data.date then p2 + pp.holiday_surcharge else p2
  let stops := stopsCount data
  if stops = 1 then p3 + pp.stop1_surcharge
  else if stops ≥ 2 then p3 + pp.stop2_surcharge
  else p3

/-- The plan of the scenario in §8 of the spec: base 900, 7 pax included,
extra pax 100, night window 22:00–06:00 with surcharge 200, holiday
surcharge 300, stop surcharges 50 / 90. -/
def scenarioPlan : PricePlan :=
  { base_price := 900
    base_pax_included := 7
    extra_pax_price := 100
    night_start := some 1320
    night_end := some 360
    night_surcharge := 200
    holiday_surcharge := 300
    stop1_surcharge := 50
    stop2_surcharge := 90
    active := true }

/-- Database for the scenario: customer 1 is linked to `scenarioPlan`
and day 1000 is a holiday. -/
def scenarioDB : PricingDB :=
  { holidays := [1000]
    planLink := fun c => if c = 1 then some scenarioPlan else none }

/-- The scenario trip: pax 9, start 23:00, on the holiday, stop1 present
(by location reference), stop2 absent. -/
def scenarioTrip : TripData :=
  { customer := some 1
    pax := some 9
    start_time := 1380
    date := 1000
    stop1_location := some 5
    stop2_location := none
    stop1_name := none
    stop2_name := none }

/-- C1: for every database state and trip attribute set, `pricing_for_trip`
returns the resolved plan's base price (the hard-coded default plan when no
active plan applies), plus `(pax - base_pax_included) * extra_pax_price`
when the effective pax exceeds the included pax, plus the night surcharge
when the start time is in the night window, plus the holiday surcharge when
the trip date is a holiday, plus the stop1 surcharge when exactly one stop
slot is present and the stop2 surcharge when both are; and the §8 scenario
prices to exactly 1650. -/
theorem pricing_for_trip_formula :
    (∀ (db : PricingDB) (data : TripData),
      pricing_for_trip db data =
        (resolved_plan db data.customer).base_price
        + (if effectivePax data.pax > (resolved_plan db data.customer).base_pax_included then
            (effectivePax data.pax - (resolved_plan db data.customer).base_pax_included)
              * (resolved_plan db data.customer).extra_pax_price
          else 0)
        + (if in_night_window data.start_time (resolved_plan db data.customer).night_start
              (resolved_plan db data.customer).night_end then
            (resolved_plan db data.customer).night_surcharge
          else 0)
        + (if db.holidays.contains data.date then
            (resolved_plan db data.customer).holiday_surcharge
          else 0)
        + (if stopsCount data = 1 then (resolved_plan db data.customer).stop1_surcharge
          else if stopsCount data ≥ 2 then (resolved_plan db data.customer).stop2_surcharge
          else 0))
    ∧ pricing_for_trip scenarioDB scenarioTrip = 1650 := by
  constructor
  · intro db data
    simp only [pricing_for_trip]
    by_cases h1 : effectivePax data.pax > (resolved_plan db data.customer).base_pax_included <;>
    by_cases h2 : in_night_window data.start_time (resolved_plan db data.customer).night_start
        (resolved_plan db data.customer).night_end = true <;>
    by_cases h3 : data.date ∈ db.holidays <;>
    by_cases h4 : stopsCount data = 1 <;>
    by_cases h5 : stopsCount data ≥ 2 <;>
    simp [h1, h2, h3, h4, h5]
  · decide

/-- C9: night-window matching — with both bounds present and
`start ≤ end` the window matches iff `start ≤ t ≤ end` (both ends
inclusive); with `start > end` it wraps midnight and matches iff
`t ≥ start ∨ t ≤ end`; an absent bound never matches. -/
theorem in_night_window_cases :
    (∀ t s e : Nat, s ≤ e →
      (in_night_window t (some s) (some e) = true ↔ (s ≤ t ∧ t ≤ e)))
    ∧ (∀ t s e : Nat, s > e →
      (in_night_window t (some s) (some e) = true ↔ (t ≥ s ∨ t ≤ e)))
    ∧ (∀ (t : Nat) (e : Option Nat), in_night_window t none e = false)
    ∧ (∀ (t : Nat) (s : Option Nat), in_night_window t s none = false) := by
  refine ⟨?_, ?_, ?_, ?_⟩
  · intro t s e h
    simp [in_night_window, h]
  · intro t s e h
    simp [in_night_window, Nat.not_le.mpr h]
  · intro t e
    cases e <;> rfl
  · intro t s
    cases s <;> rfl

/-- Witness for C9 at concrete inputs: 23:00 lies in the non-wrapping window
[12:00, 23:30], and 01:00 lies in the wrapping window [22:00, 06:00]. -/
theorem in_night_window_cases_witness :
    (in_night_window 1380 (some 720) (some 1410) = true ↔ (720 ≤ 1380 ∧ 1380 ≤ 1410))
    ∧ (in_night_window 60 (some 1320) (some 360) = true ↔ (60 ≥ 1320 ∨ 60 ≤ 360)) :=
  ⟨in_night_window_cases.1 1380 720 1410 (by decide),
   in_night_window_cases.2.1 60 1320 360 (by decide)⟩

/-! ## Assignment state machine (backend/api/views.py, serializers.py)

A trip's assignment-relevant state is its `status` column together with the
(at most one) `Assignment` row pointing at it.  The three endpoints that
touch this state inside `transaction.atomic` are modelled as pure functions
`TripState → TripState × Bool`; the `Bool` records whether the trip row
itself was written (`trip.save(update_fields=["status"])`). -/

/-- `Trip.status` choices (backend/api/models.py). -/
inductive Status where
  | unassigned
  | assigned
  | exception
deriving DecidableEq, Repr

/-- An `Assignment` row (backend/api/models.py): driver FK, nullable
`assigned_by` user FK, and `assigned_at` with `auto_now_add=True` (set only
when the row is first inserted). -/
structure AssignmentRec where
  driver : Nat
  assignedBy : Option Nat
  assignedAt : Nat
deriving DecidableEq, Repr

/-- A `Driver` row, reduced to what the endpoints read. -/
structure DriverRec where
  id : Nat
  active : Bool
deriving DecidableEq, Repr

/-- A trip's status together with its (optional) `Assignment` row. -/
structure TripState where
  status : Status
  assignment : Option AssignmentRec
deriving DecidableEq, Repr

/-- `TripViewSet.assign_driver`: `get_object_or_404(Driver, pk=..., active=True)`
aborts the atomic block when the driver is missing or inactive (no state
change).  Otherwise `Assignment.objects.update_or_create` upserts the row —
on update only the `defaults` (`driver`, `assigned_by`) are written, so an
existing `assigned_at` is kept; on insert `auto_now_add` stamps `now`.
Finally the status flips to `assigned` only from `unassigned`. -/
def assign_driver (s : TripState) (d : DriverRec) (user : Option Nat) (now : Nat) :
    TripState × Bool :=
  if d.active then
    let a :=
      match s.assignment with
      | some a0 => { driver := d.id, assignedBy := user, assignedAt := a0.assignedAt }
      | none => { driver := d.id, assignedBy := user, assignedAt := now }
    if s.status = Status.unassigned then
      ({ status := Status.assigned, assignment := some a }, true)
    else
      ({ status := s.status, assignment := some a }, false)
  else (s, false)

/-- `TripViewSet.unassign_driver`: delete the `Assignment` row (a no-op when
none exists), then write `status = "unassigned"` unless it already is. -/
def unassign_driver (s : TripState) : TripState × Bool :=
  let s1 : TripState := { s with assignment := none }
  if s1.status ≠ Status.unassigned then
    ({ s1 with status := Status.unassigned }, true)
  else (s1, false)

/-- `TripSerializer.update` when a `driver_id` was sent: `none` models an
absent or null `driver_id` (`validated.pop` default), for which the
assignment is left untouched.  With an integer id, a missing/inactive
driver raises inside the atomic block (no change); otherwise
`update_or_create(trip=trip, defaults={"driver": driver})` writes only the
driver on update, and the status flips to `assigned` only from
`unassigned`. -/
def serializer_update_driver (s : TripState) (d : Option DriverRec) (now : Nat) :
    TripState × Bool :=
  match d with
  | none => (s, false)
  | some d =>
      if d.active then
        let a :=
          match s.assignment with
          | some a0 => { a0 with driver := d.id }
          | none => { driver := d.id, assignedBy := none, assignedAt := now }
        if s.status = Status.unassigned then
          ({ status := Status.assigned, assignment := some a }, true)
        else
          ({ status := s.status, assignment := some a }, false)
      else (s, false)

/-- One assignment-affecting operation on a trip. -/
inductive TripOp where
  | assignDriver (d : DriverRec) (user : Option Nat) (now : Nat)
  | unassignDriver
  | updateDriver (d : Option DriverRec) (now : Nat)
deriving Repr

/-- Apply one operation to a trip's state. -/
def applyOp (s : TripState) (op : TripOp) : TripState :=
  match op with
  | TripOp.assignDriver d u n => (assign_driver s d u n).1
  | TripOp.unassignDriver => (unassign_driver s).1
  | TripOp.updateDriver d n => (serializer_update_driver s d n).1

/-- Apply a finite sequence of operations, oldest first. -/
def applyOps (ops : List TripOp) (s : TripState) : TripState :=
  ops.foldl applyOp s

/-- The §4.2 invariant: outside the manual `exception` state, the status is
`assigned` exactly when an `Assignment` row exists. -/
def assignConsistent (s : TripState) : Prop :=
  s.status ≠ Status.exception → (s.status = Status.assigned ↔ s.assignment.isSome = true)

/-- Preservation: each of the three operations keeps `assignConsistent`. -/
theorem applyOp_preserves_assignConsistent (s : TripState) (op : TripOp)
    (h : assignConsistent s) : assignConsistent (applyOp s op) := by
  cases op with
  | assignDriver d u n =>
      by_cases hd : d.active = true
      · by_cases hs : s.status = Status.unassigned
        · intro _
          simp [applyOp, assign_driver, hd, hs]
        · intro hex
          simp only [applyOp, assign_driver, hd, hs, if_true, if_false, ite_true,
            ite_false, if_neg, reduceIte] at hex ⊢
          have : s.status ≠ Status.exception := hex
          constructor
          · intro _
            simp
          · intro _
            cases hst : s.status with
            | unassigned => exact absurd hst hs
            | assigned => rfl
            | exception => exact absurd hst this
      · have hd' : d.active = false := by
          cases hda : d.active with
          | true => exact absurd hda hd
          | false => rfl
        simpa [applyOp, assign_driver, hd'] using h
  | unassignDriver =>
      intro _
      simp only [applyOp, unassign_driver]
      by_cases hs : s.status = Status.unassigned <;> simp [hs]
  | updateDriver d n =>
      cases d with
      | none => simpa [applyOp, serializer_update_driver] using h
      | some d =>
          by_cases hd : d.active = true
          · by_cases hs : s.status = Status.unassigned
            · intro _
              simp [applyOp, serializer_update_driver, hd, hs]
            · intro hex
              simp only [applyOp, serializer_update_driver, hd, hs, if_true, if_false,
                ite_true, ite_false, reduceIte] at hex ⊢
              constructor
              · intro _
                simp
              · intro _
                cases hst : s.status with
                | unassigned => exact absurd hst hs
                | assigned => rfl
                | exception => exact absurd hst hex
          · have hd' : d.active = false := by
              cases hda : d.active with
              | true => exact absurd hda hd
              | false => rfl
            simpa [applyOp, serializer_update_driver, hd'] using h

/-- C2: starting from any consistent trip state (every state produced by
trip creation is one), after any finite sequence of assign-driver /
unassign-driver operations — explicit actions or serializer updates with a
driver reference — a trip whose status is not `exception` has status
`assigned` iff an `Assignment` row exists for it. -/
theorem assign_unassign_invariant (s0 : TripState) (h : assignConsistent s0)
    (ops : List TripOp) : assignConsistent (applyOps ops s0) := by
  induction ops generalizing s0 with
  | nil => exact h
  | cons op rest ih =>
      exact ih (applyOp s0 op) (applyOp_preserves_assignConsistent s0 op h)

/-- Witness for C2: a freshly created unassigned trip, after an assign of an
active driver followed by an unassign, still satisfies the invariant. -/
theorem assign_unassign_invariant_witness :
    assignConsistent (applyOps
      [TripOp.assignDriver { id := 1, active := true } (some 2) 5, TripOp.unassignDriver]
      { status := Status.unassigned, assignment := none }) :=
  assign_unassign_invariant { status := Status.unassigned, assignment := none }
    (by intro _; simp [assignConsistent]) _

/-- Counterexample for C6: a trip in status `exception` with no `Assignment`
row does not keep its status across `unassign_driver` — the endpoint writes
`unassigned`, contradicting the claim that the status stays at its prior
value. -/
theorem unassign_exception_counterexample :
    (unassign_driver { status := Status.exception, assignment := none }).1.status
        = Status.unassigned
    ∧ Status.unassigned ≠ Status.exception := by
  constructor
  · rfl
  · intro h
    cases h

/-- C6 (amended): on a trip with no `Assignment` row, `unassign_driver`
succeeds and deletes nothing; if the status is already `unassigned` nothing
is written and the state is unchanged; otherwise (including `exception`)
the status is written to `unassigned`. -/
theorem unassign_no_assignment_spec (s : TripState) (h : s.assignment = none) :
    (unassign_driver s).1.assignment = none
    ∧ (s.status = Status.unassigned → unassign_driver s = (s, false))
    ∧ (s.status ≠ Status.unassigned →
        unassign_driver s = ({ s with status := Status.unassigned }, true)) := by
  refine ⟨?_, ?_, ?_⟩
  · simp only [unassign_driver]
    by_cases hs : s.status = Status.unassigned <;> simp [hs]
  · intro hs
    cases s with
    | mk st a =>
        cases h
        simp_all [unassign_driver]
  · intro hs
    cases s with
    | mk st a =>
        cases h
        simp_all [unassign_driver]

/-- Witness for C6 (amended): concrete checks on an unassigned and an
exception trip, both without an `Assignment` row. -/
theorem unassign_no_assignment_spec_witness :
    ((unassign_driver { status := Status.unassigned, assignment := none }).1.assignment = none
      ∧ (Status.unassigned = Status.unassigned →
          unassign_driver { status := Status.unassigned, assignment := none }
            = ({ status := Status.unassigned, assignment := none }, false))
      ∧ (Status.unassigned ≠ Status.unassigned →
          unassign_driver { status := Status.unassigned, assignment := none }
            = ({ status := Status.unassigned, assignment := none }, true))) :=
  unassign_no_assignment_spec { status := Status.unassigned, assignment := none } rfl

/-- C10: assigning an (active) driver to a trip that already has an
`Assignment` row replaces the row's `driver` and `assigned_by` in place but
keeps the original `assigned_at` timestamp, because `auto_now_add` stamps
it only at row creation. -/
theorem assign_driver_keeps_assigned_at (s : TripState) (d : DriverRec)
    (user : Option Nat) (now : Nat) (a : AssignmentRec)
    (ha : s.assignment = some a) (hd : d.active = true) :
    ((assign_driver s d user now).1).assignment
      = some { driver := d.id, assignedBy := user, assignedAt := a.assignedAt } := by
  simp only [assign_driver, hd, ha, if_true]
  by_cases hs : s.status = Status.unassigned <;> simp [hs]

/-- Witness for C10: replacing driver 1's assignment (made at time 7) with
driver 3 keeps `assigned_at = 7`. -/
theorem assign_driver_keeps_assigned_at_witness :
    ((assign_driver
        { status := Status.assigned,
          assignment := some { driver := 1, assignedBy := some 2, assignedAt := 7 } }
        { id := 3, active := true } (some 4) 99).1).assignment
      = some { driver := 3, assignedBy := some 4, assignedAt := 7 } :=
  assign_driver_keeps_assigned_at
    { status := Status.assigned,
      assignment := some { driver := 1, assignedBy := some 2, assignedAt := 7 } }
    { id := 3, active := true } (some 4) 99
    { driver := 1, assignedBy := some 2, assignedAt := 7 } rfl rfl

/-! ## Bulk invoicing (backend/api/views.py, TripViewSet.bulk_invoice) -/

/-- A `Trip` row reduced to the fields `bulk_invoice` reads and writes.
`year`/`month` model the `date__year` / `date__month` lookups on the trip's
date. -/
structure InvTrip where
  id : Nat
  customer : Option Nat
  year : Int
  month : Int
  invoiced : Bool
  invoicedAt : Option Nat
  invoicedBy : Option Nat
deriving DecidableEq, Repr

/-- The queryset filter `customer_id=... , date__year=..., date__month=...`. -/
def invScope (c : Nat) (y m : Int) (t : InvTrip) : Bool :=
  (t.customer == some c) && (t.year == y) && (t.month == m)

/-- The row predicate of the `update` call: in scope and with an `invoiced`
flag differing from the target (`filter(invoiced=False)` when setting true,
`filter(invoiced=True)` when clearing). -/
def invTouched (c : Nat) (y m : Int) (inv : Bool) (t : InvTrip) : Bool :=
  invScope c y m t && (if inv then !t.invoiced else t.invoiced)

/-- Effect of the `update` call on a single row. -/
def invApply (c : Nat) (y m : Int) (inv : Bool) (now user : Nat) (t : InvTrip) : InvTrip :=
  if inv then
    if invScope c y m t && !t.invoiced then
      { t with invoiced := true, invoicedAt := some now, invoicedBy := some user }
    else t
  else
    if invScope c y m t && t.invoiced then
      { t with invoiced := false, invoicedAt := none, invoicedBy := none }
    else t

/-- `TripViewSet.bulk_invoice`: the new table contents together with the
`updated` row count returned to the caller. -/
def bulk_invoice (trips : List InvTrip) (c : Nat) (y m : Int) (inv : Bool)
    (now user : Nat) : List InvTrip × Nat :=
  (trips.map (invApply c y m inv now user), (trips.filter (invTouched c y m inv)).length)

/-- Unfolding of `invApply` at target `true`. -/
theorem invApply_true_eq (c : Nat) (y m : Int) (now user : Nat) (t : InvTrip) :
    invApply c y m true now user t =
      if invScope c y m t && !t.invoiced then
        { t with invoiced := true, invoicedAt := some now, invoicedBy := some user }
      else t := rfl

/-- Unfolding of `invApply` at target `false`. -/
theorem invApply_false_eq (c : Nat) (y m : Int) (now user : Nat) (t : InvTrip) :
    invApply c y m false now user t =
      if invScope c y m t && t.invoiced then
        { t with invoiced := false, invoicedAt := none, invoicedBy := none }
      else t := rfl

/-- A row just written by `bulk_invoice` is never touched again by a second
run with the same arguments. -/
theorem invTouched_invApply (c : Nat) (y m : Int) (inv : Bool) (now user : Nat)
    (t : InvTrip) : invTouched c y m inv (invApply c y m inv now user t) = false := by
  cases inv with
  | true =>
      simp only [invTouched, invApply, if_true, reduceIte]
      by_cases h : (invScope c y m t && !t.invoiced) = true
      · rw [if_pos h]
        simp [invScope]
      · rw [if_neg h]
        simpa using h
  | false =>
      simp only [invTouched, invApply, if_false, reduceIte]
      by_cases h : (invScope c y m t && t.invoiced) = true
      · rw [if_pos h]
        simp [invScope]
      · rw [if_neg h]
        simpa using h

/-- Re-applying the per-row update is the identity. -/
theorem invApply_idem (c : Nat) (y m : Int) (inv : Bool) (n1 u1 n2 u2 : Nat)
    (t : InvTrip) :
    invApply c y m inv n2 u2 (invApply c y m inv n1 u1 t) = invApply c y m inv n1 u1 t := by
  cases inv with
  | true =>
      by_cases h : (invScope c y m t && !t.invoiced) = true
      · have h1 : invApply c y m true n1 u1 t
            = { t with invoiced := true, invoicedAt := some n1, invoicedBy := some u1 } := by
          rw [invApply_true_eq, if_pos h]
        rw [h1, invApply_true_eq, if_neg (by simp)]
      · have h1 : invApply c y m true n1 u1 t = t := by
          rw [invApply_true_eq, if_neg h]
        rw [h1, invApply_true_eq, if_neg h]
  | false =>
      by_cases h : (invScope c y m t && t.invoiced) = true
      · have h1 : invApply c y m false n1 u1 t
            = { t with invoiced := false, invoicedAt := none, invoicedBy := none } := by
          rw [invApply_false_eq, if_pos h]
        rw [h1, invApply_false_eq, if_neg (by simp)]
      · have h1 : invApply c y m false n1 u1 t = t := by
          rw [invApply_false_eq, if_neg h]
        rw [h1, invApply_false_eq, if_neg h]

/-- C7: `bulk_invoice` is idempotent — a second run with the same customer,
month and target value (and no intervening changes) reports zero updated
rows and leaves the table exactly as the first run left it, because the
update only touches rows whose `invoiced` flag differs from the target. -/
theorem bulk_invoice_idempotent (trips : List InvTrip) (c : Nat) (y m : Int)
    (inv : Bool) (n1 u1 n2 u2 : Nat) :
    (bulk_invoice (bulk_invoice trips c y m inv n1 u1).1 c y m inv n2 u2).2 = 0
    ∧ (bulk_invoice (bulk_invoice trips c y m inv n1 u1).1 c y m inv n2 u2).1
        = (bulk_invoice trips c y m inv n1 u1).1 := by
  constructor
  · simp only [bulk_invoice, List.length_eq_zero, List.filter_eq_nil_iff]
    intro t ht
    rcases List.mem_map.mp ht with ⟨t0, _, rfl⟩
    simp [invTouched_invApply]
  · simp only [bulk_invoice, List.map_map]
    apply List.map_congr_left
    intro t _
    exact invApply_idem c y m inv n1 u1 n2 u2 t

/-! ## Trip validation (backend/api/serializers.py, TripSerializer.validate) -/

/-- The parts of the incoming `attrs` dict that `validate` reads.  The outer
`Option` distinguishes "key absent" from "key present with null" (Python's
`attrs.get(key, default)`); `price` is an `IntegerField(allow_null=True)`,
so a present value is an integer or null, never `""`. -/
structure TripAttrs where
  customer : Option (Option Nat)
  price : Option (Option Int)
deriving DecidableEq, Repr

/-- What `validate` queries:
`CustomerPricePlan.objects.filter(customer=customer).exists()` — link
existence only, with no check of the linked plan's `active` flag. -/
structure ValidateDB where
  hasLink : Nat → Bool

/-- `attrs.get("customer", getattr(self.instance, "customer", None))`. -/
def effectiveCustomer (attrs : TripAttrs) (instanceCustomer : Option Nat) : Option Nat :=
  match attrs.customer with
  | some c => c
  | none => instanceCustomer

/-- `attrs.get("price", None)` (the `price == ""` normalisation is dead for
an `IntegerField`). -/
def effectivePrice (attrs : TripAttrs) : Option Int :=
  match attrs.price with
  | some p => p
  | none => none

/-- `TripSerializer.validate`: returns the offending field name on
rejection (`serializers.ValidationError({"price": ...})`), `none` on
success.  A missing/None customer is rejected unconditionally; otherwise
rejection happens exactly when no `CustomerPricePlan` link exists and the
price is absent. -/
def trip_validate (db : ValidateDB) (instanceCustomer : Option Nat)
    (attrs : TripAttrs) : Option String :=
  match effectiveCustomer attrs instanceCustomer with
  | none => some ("price")
  | some c =>
      if !db.hasLink c && (effectivePrice attrs).isNone then some ("price")
      else none

/-- Counterexample for C3: a create request with an explicit price (500) and
no customer is rejected with a `price` validation error, although the claim
says every such request is accepted. -/
theorem trip_validate_price_without_customer_rejected :
    trip_validate { hasLink := fun _ => false } none
      { customer := none, price := some (some 500) } ≠ none := by
  decide

/-- C3 (amended): trip validation raises a failure identifying the `price`
field iff the effective customer is absent (regardless of any supplied
price), or the customer has no `CustomerPricePlan` link at all (the linked
plan's `active` flag is never consulted) and the price is omitted.  In
particular a customer whose only link points at an inactive plan passes
validation with an omitted price. -/
theorem trip_validate_characterization (db : ValidateDB)
    (instanceCustomer : Option Nat) (attrs : TripAttrs) :
    trip_validate db instanceCustomer attrs = some ("price")
      ↔ (effectiveCustomer attrs instanceCustomer = none
          ∨ ∃ c, effectiveCustomer attrs instanceCustomer = some c
              ∧ db.hasLink c = false ∧ effectivePrice attrs = none) := by
  unfold trip_validate
  cases hc : effectiveCustomer attrs instanceCustomer with
  | none => simp
  | some c =>
      by_cases hl : db.hasLink c = true
      · simp [hl]
      · have hl' : db.hasLink c = false := by
          cases h : db.hasLink c with
          | true => exact absurd h hl
          | false => rfl
        by_cases hp : effectivePrice attrs = none
        · simp [hl', hp, Option.isNone_iff_eq_none]
        · simp [hl', hp, Option.isNone_iff_eq_none]

/-! ## Avinor best-candidate selection (backend/api/views.py, AirEtaAvinor.get)

`picked = sorted(hits, key=score)[0]` with
`score(item) = (0, eta) if eta >= now else (1, eta)` and
`(1, datetime.max)` when no ETA parses.  `sorted` is ascending and stable,
so the pick is the left-most element with the minimal key. -/

/-- One matched feed entry, reduced to an id and its parsed ETA (an absolute
timestamp; `none` when unparsable). -/
structure EtaItem where
  id : Nat
  eta : Option Int
deriving DecidableEq, Repr

/-- Stand-in for `datetime.max` as a timestamp. -/
def datetimeMax : Int := 253402300799

/-- The `score` key function. -/
def avinorScore (now : Int) (it : EtaItem) : Nat × Int :=
  match it.eta with
  | none => (1, datetimeMax)
  | some e => if e ≥ now then (0, e) else (1, e)

/-- Strict lexicographic order on score keys (Python tuple comparison). -/
def scoreLt (a b : Nat × Int) : Bool :=
  decide (a.1 < b.1) || ((a.1 == b.1) && decide (a.2 < b.2))

/-- `sorted(hits, key=score)[0]`: the left-most element with minimal score
(ascending stable sort, first element). -/
def avinorPick (now : Int) (hits : List EtaItem) : Option EtaItem :=
  hits.foldl
    (fun acc it =>
      match acc with
      | none => some it
      | some b => if scoreLt (avinorScore now it) (avinorScore now b) then some it else acc)
    none

/-- C4 failing input: two matches whose ETAs (50 and 80) both lie in the
past of `now = 100`.  The code picks the item with ETA 50 — the *earliest*
past time — while the claim (and the comment in the source:
"ellers siste i fortiden") requires the most recent past time, ETA 80. -/
theorem avinor_pick_earliest_past :
    avinorPick 100 [{ id := 1, eta := some 50 }, { id := 2, eta := some 80 }]
        = some { id := 1, eta := some 50 }
    ∧ avinorScore 100 { id := 1, eta := some 50 } = (1, 50)
    ∧ avinorScore 100 { id := 2, eta := some 80 } = (1, 80) := by
  decide

/-! ## Flight-number matcher (backend/api/integrations/fr24.py)

Strings are handled as `List Char`.  The Python helpers used by the matcher
are `_norm` (strip, upper-case, remove spaces — note: not a full
non-alphanumeric strip), `_digits`, the callsign regex
`^[A-Z]{3}[0-9A-Z]{1,5}$` and the IATA split regex
`^([A-Z]{2})([0-9]{1,4}[A-Z]?)$`. -/

/-- ASCII whitespace as stripped by Python's `str.strip()`. -/
def pyIsSpace (c : Char) : Bool :=
  c == ' ' || c == '\t' || c == '\n' || c == '\r' || c == '\x0b' || c == '\x0c'

/-- Python `str.upper()` on an ASCII character. -/
def pyToUpper (c : Char) : Char :=
  if 97 ≤ c.toNat ∧ c.toNat ≤ 122 then Char.ofNat (c.toNat - 32) else c

/-- Python `str.isdigit()` restricted to ASCII. -/
def pyIsDigit (c : Char) : Bool :=
  decide (48 ≤ c.toNat) && decide (c.toNat ≤ 57)

/-- The regex class `[A-Z]`. -/
def isUpperAlpha (c : Char) : Bool :=
  decide (65 ≤ c.toNat) && decide (c.toNat ≤ 90)

/-- Python `str.strip()`: drop whitespace from both ends. -/
def pyStrip (l : List Char) : List Char :=
  ((l.dropWhile pyIsSpace).reverse.dropWhile pyIsSpace).reverse

/-- `(s or "").strip().upper().replace(" ", "")` on a character list. -/
def normChars (l : List Char) : List Char :=
  ((pyStrip l).map pyToUpper).filter (fun c => !(c == ' '))

/-- `_norm` from fr24.py. -/
def _norm (s : String) : List Char := normChars s.data

/-- `"".join(ch for ch in (s or "") if ch.isdigit())` on a character list. -/
def digitsChars (l : List Char) : List Char := l.filter pyIsDigit

/-- `_digits` from fr24.py. -/
def _digits (s : String) : List Char := digitsChars s.data

/-- A feed record reduced to the two fields the matcher compares; `none`
models a missing/None field (`it.get(...)`). -/
structure FlightRec where
  flight : Option String
  callsign : Option String
deriving DecidableEq, Repr

/-- `_norm(it.get("x"))` — `_norm` maps None to the empty string. -/
def normField (o : Option String) : List Char := _norm (o.getD (""))

/-- `_digits(it.get("x"))`. -/
def digitsField (o : Option String) : List Char := _digits (o.getD (""))

/-- The callsign regex `^[A-Z]{3}[0-9A-Z]{1,5}$`. -/
def callsignShape (l : List Char) : Bool :=
  match l with
  | a :: b :: c :: rest =>
      isUpperAlpha a && isUpperAlpha b && isUpperAlpha c &&
      decide (1 ≤ rest.length) && decide (rest.length ≤ 5) &&
      rest.all (fun ch => pyIsDigit ch || isUpperAlpha ch)
  | _ => false

/-- `looks_like_callsign` from fr24.py (normalises its argument itself). -/
def looks_like_callsign (l : List Char) : Bool := callsignShape (normChars l)

/-- `_split_iata_num` from fr24.py: `DY540` → (`DY`, `540`); a trailing
letter after 1–4 digits is tolerated and dropped from the digit group. -/
def _split_iata_num (l : List Char) : Option (List Char × List Char) :=
  match normChars l with
  | a :: b :: rest =>
      if isUpperAlpha a && isUpperAlpha b then
        let ds := rest.takeWhile pyIsDigit
        let tl := rest.drop ds.length
        if decide (1 ≤ ds.length) && decide (ds.length ≤ 4) &&
            (tl.isEmpty || (decide (tl.length = 1) && tl.all isUpperAlpha)) then
          some ([a, b], ds)
        else none
      else none
  | _ => none

/-- The static IATA → ICAO-prefix alias table from fr24.py. -/
def AIRLINE_ALIASES : String → List String
  | "DY" => ["NOZ", "NSZ", "NAX"]
  | "SK" => ["SAS", "SZS"]
  | "LH" => ["DLH"]
  | "WF" => ["WIF"]
  | "KL" => ["KLM"]
  | "BA" => ["BAW"]
  | "AF" => ["AFR"]
  | "TK" => ["THY"]
  | "AY" => ["FIN"]
  | "LX" => ["SWR"]
  | "OS" => ["AUA"]
  | "SN" => ["BEL"]
  | "LO" => ["LOT"]
  | "IB" => ["IBE"]
  | "EI" => ["EIN"]
  | "AZ" => ["ITY", "AZA"]
  | "UA" => ["UAL"]
  | "AA" => ["AAL"]
  | "DL" => ["DAL"]
  | "QR" => ["QTR"]
  | "EK" => ["UAE"]
  | "SU" => ["AFL"]
  | "RJ" => ["RJA"]
  | "HV" => ["TRA"]
  | "TO" => ["TVF"]
  | "FR" => ["RYR", "MAY"]
  | "XQ" => ["SXS"]
  | "T7" => ["T7M"]
  | _ => []

/-- `allowed_icao = AIRLINE_ALIASES.get(iata, []).copy()` plus the IATA code
itself appended when not already present. -/
def allowed_icao_of (iata : List Char) : List (List Char) :=
  let aliases := (AIRLINE_ALIASES (String.mk iata)).map String.data
  if aliases.contains iata then aliases else aliases ++ [iata]

/-- `_match_flight_field` from fr24.py: normalised digits must equal the
query's digits and the leading alphabetic run must be an allowed airline
code. -/
def _match_flight_field (field : String) (allowed : List (List Char))
    (num : List Char) : Bool :=
  let f := _norm field
  if f.isEmpty then false
  else
    let fnum := digitsChars f
    if fnum.isEmpty || !(fnum == num) then false
    else allowed.contains (f.takeWhile isUpperAlpha)

/-- `_match_callsign_field` from fr24.py: the first three characters must be
an allowed ICAO code and the digits after them must equal the query digits
or start with them (tolerating letter suffixes). -/
def _match_callsign_field (field : String) (allowedIcao : List (List Char))
    (num : List Char) : Bool :=
  let cs := _norm field
  if cs.isEmpty || decide (cs.length < 3) then false
  else if !(allowedIcao.contains (cs.take 3)) then false
  else
    let ds := digitsChars (cs.drop 3)
    if ds.isEmpty then false
    else ds == num || num.isPrefixOf ds

/-- The primary per-record test of `filter_by_flight_number`
(`if f and _match_flight_field(...)` / `if not ok and cs and
_match_callsign_field(...)`). -/
def primaryMatch (allowedIata allowedIcao : List (List Char)) (num : List Char)
    (it : FlightRec) : Bool :=
  (match it.flight with
   | some f => !(f == "") && _match_flight_field f allowedIata num
   | none => false)
  || (match it.callsign with
      | some cs => !(cs == "") && _match_callsign_field cs allowedIcao num
      | none => false)

/-- Fallback 3: exact digit-string equality on either field. -/
def digitsEqPred (nd : List Char) (it : FlightRec) : Bool :=
  digitsField it.flight == nd || digitsField it.callsign == nd

/-- Fallback 4a: the normalised query is a prefix of either normalised
field. -/
def normStartsPred (q : List Char) (it : FlightRec) : Bool :=
  q.isPrefixOf (normField it.flight) || q.isPrefixOf (normField it.callsign)

/-- Python's `q in s` substring test on character lists. -/
def containsSeg (q : List Char) : List Char → Bool
  | [] => q.isEmpty
  | c :: t => q.isPrefixOf (c :: t) || containsSeg q t

/-- Fallback 4b: the normalised query occurs inside either normalised
field. -/
def normSubPred (q : List Char) (it : FlightRec) : Bool :=
  containsSeg q (normField it.flight) || containsSeg q (normField it.callsign)

/-- Body of `filter_by_flight_number` after the query has been normalised
(everything downstream reads only `q = _norm(query)`). -/
def filter_core (items : List FlightRec) (q : List Char) : List FlightRec :=
  if looks_like_callsign q then
    items.filter (fun it => normField it.callsign == q)
  else
    match _split_iata_num q with
    | none => items.filter (fun it => normField it.flight == q)
    | some (iata, num) =>
        let primary := items.filter (primaryMatch [iata] (allowed_icao_of iata) num)
        if !primary.isEmpty then primary
        else
          let numMatch := items.filter (digitsEqPred (digitsChars q))
          if !numMatch.isEmpty then numMatch
          else
            let starts := items.filter (normStartsPred q)
            if !starts.isEmpty then starts
            else items.filter (normSubPred q)

/-- `filter_by_flight_number` from fr24.py. -/
def filter_by_flight_number (items : List FlightRec) (query : String) :
    List FlightRec :=
  filter_core items (_norm query)

/-- The normalisation the spec claims: upper-case, then remove every
character outside `[A-Z0-9]` (modelled from the spec's words, for
comparison with the source's `_norm`). -/
def spec_normalize (s : String) : List Char :=
  (s.data.map pyToUpper).filter (fun c => isUpperAlpha c || pyIsDigit c)

/-- Counterexample for C5: under the normalisation the spec describes
(`[A-Z0-9]` only) the queries `DY-540` and `DY540` are identical, yet the
matcher returns different match sets for them, because `_norm` only removes
spaces and keeps the hyphen. -/
theorem norm_keeps_hyphen_counterexample :
    spec_normalize ("DY-540") = spec_normalize ("DY540")
    ∧ filter_by_flight_number
        [{ flight := some ("DY 540"), callsign := none }] ("DY-540")
      ≠ filter_by_flight_number
        [{ flight := some ("DY 540"), callsign := none }] ("DY540") := by
  decide

/-- C5 (amended): the matcher normalises the query by trimming, upper-casing
and removing spaces only (not all non-alphanumerics); every comparison
downstream reads only this normalised query, so two queries with the same
`_norm` image — e.g. differing only in spaces, such as `DY 540` vs `DY540`
— produce identical match sets. -/
theorem filter_depends_only_on_norm (items : List FlightRec) (q1 q2 : String)
    (h : _norm q1 = _norm q2) :
    filter_by_flight_number items q1 = filter_by_flight_number items q2 := by
  unfold filter_by_flight_number
  rw [h]

/-- Witness for C5 (amended): `DY 540` and `DY540` normalise identically and
hence match the same records. -/
theorem filter_depends_only_on_norm_witness :
    filter_by_flight_number
        [{ flight := some ("DY 540"), callsign := none }] ("DY 540")
      = filter_by_flight_number
        [{ flight := some ("DY 540"), callsign := none }] ("DY540") :=
  filter_depends_only_on_norm
    [{ flight := some ("DY 540"), callsign := none }] ("DY 540") ("DY540") (by decide)

/-- A record passing the primary predicate is in the matcher's result
whenever the query is not callsign-shaped and splits as IATA + digits. -/
theorem mem_filter_core_primary (items : List FlightRec) (q iata num : List Char)
    (r : FlightRec)
    (hcs : looks_like_callsign q = false)
    (hsplit : _split_iata_num q = some (iata, num))
    (hmem : r ∈ items)
    (hp : primaryMatch [iata] (allowed_icao_of iata) num r = true) :
    r ∈ filter_core items q := by
  have hpr : r ∈ items.filter (primaryMatch [iata] (allowed_icao_of iata) num) :=
    List.mem_filter.mpr ⟨hmem, hp⟩
  have hne : (items.filter (primaryMatch [iata] (allowed_icao_of iata) num)).isEmpty
      = false := by
    cases hfe : items.filter (primaryMatch [iata] (allowed_icao_of iata) num) with
    | nil => rw [hfe] at hpr; cases hpr
    | cons a l => rfl
  unfold filter_core
  rw [if_neg (by simp [hcs]), hsplit]
  simp only [hne, Bool.not_false, if_true, reduceIte]
  exact hpr

/-- An uppercase letter is not a digit. -/
theorem upperAlpha_not_digit (c : Char) (h : isUpperAlpha c = true) :
    pyIsDigit c = false := by
  simp only [isUpperAlpha, Bool.and_eq_true, decide_eq_true_eq] at h
  simp only [pyIsDigit, Bool.and_eq_false_iff, decide_eq_false_iff_not]
  omega

/-- A flight field normalising to `DY540` passes `_match_flight_field` for
the query (`DY`, `540`). -/
theorem match_flight_field_dy540 (f : String) (h : _norm f = ("DY540").data) :
    _match_flight_field f [("DY").data] (("540").data) = true := by
  unfold _match_flight_field
  rw [h]
  decide

/-- A callsign field normalising to an allowed `DY` alias prefix, followed
by the digits 540 and at most one trailing letter, passes
`_match_callsign_field`. -/
theorem match_callsign_field_dy540 (cs p : String) (t : List Char)
    (hp : p = "NOZ" ∨ p = "NSZ" ∨ p = "NAX")
    (h : _norm cs = p.data ++ (("540").data ++ t))
    (ht : t = [] ∨ ∃ c, t = [c] ∧ isUpperAlpha c = true) :
    _match_callsign_field cs (allowed_icao_of (("DY").data)) (("540").data) = true := by
  unfold _match_callsign_field
  rw [h]
  rcases hp with rfl | rfl | rfl <;>
    rcases ht with rfl | ⟨c, rfl, hc⟩ <;>
      first
        | decide
        | (have hd := upperAlpha_not_digit c hc
           simp [digitsChars, List.filter, hd, allowed_icao_of, AIRLINE_ALIASES,
             List.take, List.drop, pyIsDigit])

/-- C8: for the query `DY540`, the matcher's result contains every record
whose flight field normalises to `DY540`, and every record whose callsign
normalises to an allowed `DY` ICAO alias prefix followed by the digits 540
and at most one trailing letter; and on the spec's three-record example
(`flight="DY 540"`, `callsign="NOZ540A"`, `callsign="NAX612"`) it returns
exactly the first two records. -/
theorem filter_dy540_spec :
    (∀ (items : List FlightRec) (r : FlightRec), r ∈ items →
        normField r.flight = ("DY540").data →
        r ∈ filter_by_flight_number items ("DY540"))
    ∧ (∀ (items : List FlightRec) (r : FlightRec) (cs p : String) (t : List Char),
        r ∈ items → r.callsign = some cs → p ∈ AIRLINE_ALIASES ("DY") →
        _norm cs = p.data ++ (("540").data ++ t) →
        (t = [] ∨ ∃ c, t = [c] ∧ isUpperAlpha c = true) →
        r ∈ filter_by_flight_number items ("DY540"))
    ∧ filter_by_flight_number
        [{ flight := some ("DY 540"), callsign := none },
         { flight := none, callsign := some ("NOZ540A") },
         { flight := none, callsign := some ("NAX612") }] ("DY540")
      = [{ flight := some ("DY 540"), callsign := none },
         { flight := none, callsign := some ("NOZ540A") }] := by
  refine ⟨?_, ?_, by decide⟩
  · intro items r hmem hnorm
    unfold filter_by_flight_number
    apply mem_filter_core_primary items (_norm ("DY540")) (("DY").data) (("540").data) r
      (by decide) (by decide) hmem
    cases hf : r.flight with
    | none =>
        rw [hf] at hnorm
        exact absurd hnorm (by decide)
    | some f =>
        have h' : _norm f = ("DY540").data := by rw [hf] at hnorm; exact hnorm
        have hne : (f == "") = false := by
          cases hq : f == "" with
          | true =>
              exfalso
              have hf0 : f = "" := eq_of_beq hq
              rw [hf0] at h'
              exact absurd h' (by decide)
          | false => rfl
        unfold primaryMatch
        rw [hf]
        rw [Bool.or_eq_true]
        left
        show (!(f == "") && _match_flight_field f [("DY").data] (("540").data)) = true
        rw [Bool.and_eq_true]
        exact ⟨by rw [hne]; rfl, match_flight_field_dy540 f h'⟩
  · intro items r cs p t hmem hcall hpmem hnorm ht
    have hp3 : p = "NOZ" ∨ p = "NSZ" ∨ p = "NAX" := by
      simpa [AIRLINE_ALIASES] using hpmem
    unfold filter_by_flight_number
    apply mem_filter_core_primary items (_norm ("DY540")) (("DY").data) (("540").data) r
      (by decide) (by decide) hmem
    unfold primaryMatch
    rw [hcall]
    rw [Bool.or_eq_true]
    right
    show (!(cs == "") && _match_callsign_field cs (allowed_icao_of (("DY").data))
        (("540").data)) = true
    rw [Bool.and_eq_true]
    constructor
    · cases hq : cs == "" with
      | true =>
          exfalso
          have hcs0 : cs = "" := eq_of_beq hq
          rw [hcs0] at hnorm
          have hempty : _norm ("") = ([] : List Char) := by decide
          rw [hempty] at hnorm
          rcases hp3 with rfl | rfl | rfl <;>
            exact absurd hnorm.symm (by simp)
      | false => rfl
    · exact match_callsign_field_dy540 cs p t hp3 hnorm ht

/-- Witness for C8: a record with flight `DY 540` is matched, and the record
with callsign `NOZ540A` is matched through the alias table. -/
theorem filter_dy540_spec_witness :
    ({ flight := some ("DY 540"), callsign := none } : FlightRec)
      ∈ filter_by_flight_number
          [{ flight := some ("DY 540"), callsign := none }] ("DY540")
    ∧ ({ flight := none, callsign := some ("NOZ540A") } : FlightRec)
      ∈ filter_by_flight_number
          [{ flight := none, callsign := some ("NOZ540A") }] ("DY540") :=
  ⟨filter_dy540_spec.1 [{ flight := some ("DY 540"), callsign := none }]
      { flight := some ("DY 540"), callsign := none } (by simp) (by decide),
   filter_dy540_spec.2.1 [{ flight := none, callsign := some ("NOZ540A") }]
      { flight := none, callsign := some ("NOZ540A") } ("NOZ540A") ("NOZ") ['A']
      (by simp) rfl (by decide) (by decide)
      (Or.inr ⟨'A', rfl, by decide⟩)⟩
